import Mathlib

/-!
Verification development for the BrowserAgent application (src/app.py).

The Python source is shallowly embedded here:
* the two enums and the `BrowserAction` record are translated directly;
* the Playwright-backed `BrowserAgent` is modelled as a record holding the
  recorded `current_url`, together with a `World` of oracle functions that
  decides the outcome of each live-browser operation (click succeeds or
  times out, goto succeeds or raises, the sanitized page content, ...);
  every driver operation additionally returns the list of live-browser
  calls it issued, so that "no driver call happens" is a provable fact;
* a value produced by an uncaught Python exception is an `Except.error`;
* the Streamlit script body of `main` is one `step` of a state machine on
  the persistent `st.session_state`, with the widget events (the task
  text box, the Submit button) supplied as an `Event`.
-/

namespace BrowserAgentApp

/-- `ActionType` enum from app.py. -/
inductive ActionType
  | CLICK
  | TYPE
  | EXTRACT
  | WAIT
  | NAVIGATE
  | FINISHED
deriving DecidableEq

/-- `SelectorType` enum from app.py. -/
inductive SelectorType
  | ID
  | CLASS
  | XPATH
  | TEXT
  | CSS
deriving DecidableEq

/-- `ActionType(s)`: Python enum lookup by value; unknown value raises
`ValueError` (modelled as `Except.error`). -/
def ActionType.ofValue (s : String) : Except String ActionType :=
  if s = "click" then Except.ok ActionType.CLICK
  else if s = "type" then Except.ok ActionType.TYPE
  else if s = "extract" then Except.ok ActionType.EXTRACT
  else if s = "wait" then Except.ok ActionType.WAIT
  else if s = "navigate" then Except.ok ActionType.NAVIGATE
  else if s = "finished" then Except.ok ActionType.FINISHED
  else Except.error (s ++ " is not a valid ActionType")

/-- `SelectorType(s)`: Python enum lookup by value. -/
def SelectorType.ofValue (s : String) : Except String SelectorType :=
  if s = "id" then Except.ok SelectorType.ID
  else if s = "class" then Except.ok SelectorType.CLASS
  else if s = "xpath" then Except.ok SelectorType.XPATH
  else if s = "text" then Except.ok SelectorType.TEXT
  else if s = "css" then Except.ok SelectorType.CSS
  else Except.error (s ++ " is not a valid SelectorType")

/-- The six strings accepted by `ActionType(...)`. -/
def knownActionTypes : List String :=
  ["click", "type", "extract", "wait", "navigate", "finished"]

/-- The raw decision mapping produced by the oracle (`json.loads` of the
LLM response): every key is optional, `none` meaning the key is absent. -/
structure Decision where
  action_type : Option String
  selector_type : Option String
  selector : Option String
  input_value : Option String
  requires_user_input : Option Bool
  user_prompt : Option String
  timeout : Option Int
  explanation : Option String
  task_progress : Option String
deriving DecidableEq

/-- The raw decision with every key absent. -/
def Decision.empty : Decision :=
  ⟨none, none, none, none, none, none, none, none, none⟩

/-- `BrowserAction.__init__` record.  `action_type` is `Option` because
`execute_browser_action` passes `None` when the key is absent. -/
structure BrowserAction where
  action_type : Option ActionType
  selector_type : Option SelectorType
  selector : Option String
  input_value : Option String
  requires_user_input : Bool
  user_prompt : Option String
  timeout : Int
deriving DecidableEq

/-- The recorded state of `BrowserAgent`: the only field the code reads back
is `self.current_url` (the live Playwright page is part of the `World`). -/
structure BrowserAgent where
  current_url : String
deriving DecidableEq

/-- `BrowserAgent.__init__` sets `self.current_url = ""`. -/
def BrowserAgent.init : BrowserAgent := { current_url := "" }

/-- Outcomes of the live-browser (Playwright) operations, fixed per step:
whether `goto`/`click`/`fill` succeed, whether a selector is found in time,
the inner text of a found element, and the sanitized page content that
`get_page_content` produces (its BeautifulSoup pass is a black box; a
content failure is already folded into the string, the code returns `""`). -/
structure World where
  gotoOk : String → Bool
  clickOk : String → Int → Bool
  fillOk : String → String → Int → Bool
  waitFound : String → Int → Bool
  innerText : String → Int → String
  pageContent : String

/-- One call issued to the live browser. -/
inductive DriverCall
  | goto (url : String)
  | click (selector : String) (timeout : Int)
  | fill (selector : String) (text : String) (timeout : Int)
  | waitForSelector (selector : String) (timeout : Int)
  | content
deriving DecidableEq

/-- Python f-string rendering of a possibly-None value. -/
def pyStr : Option String → String
  | some s => s
  | none => "None"

/-- `BrowserAgent._get_selector` on its annotated types: the pure
selector-kind-to-locator mapping. -/
def get_selector (selector_type : SelectorType) (selector : String) : String :=
  if selector_type = SelectorType.ID then "#" ++ selector
  else if selector_type = SelectorType.CLASS then "." ++ selector
  else if selector_type = SelectorType.XPATH then selector
  else if selector_type = SelectorType.TEXT then "text=" ++ selector
  else selector

/-- `_get_selector` as actually invoked by the driver methods, where Python
may pass `None` for either argument: a `None` selector is interpolated as
the string "None" by the f-strings, a `None` selector_type falls into the
final `else` and returns the selector verbatim.  The result is `none`
exactly when Python would hand `None` to Playwright (which raises). -/
def get_selector_opt (selector_type : Option SelectorType) (selector : Option String) :
    Option String :=
  match selector_type with
  | some SelectorType.ID => some ("#" ++ pyStr selector)
  | some SelectorType.CLASS => some ("." ++ pyStr selector)
  | some SelectorType.XPATH => selector
  | some SelectorType.TEXT => some ("text=" ++ pyStr selector)
  | some SelectorType.CSS => selector
  | none => selector

/-- `BrowserAgent.navigate_to_url`: `page.goto(url)` then record the url;
any exception (including `goto(None)`) is caught and yields `False` with
`current_url` untouched. -/
def navigate_to_url (w : World) (a : BrowserAgent) (url : Option String) :
    BrowserAgent × Bool × List DriverCall :=
  match url with
  | none => (a, false, [])
  | some u =>
    if w.gotoOk u then ({ current_url := u }, true, [DriverCall.goto u])
    else (a, false, [DriverCall.goto u])

/-- `BrowserAgent.find_and_click`. -/
def find_and_click (w : World) (selector_type : Option SelectorType)
    (selector : Option String) (timeout : Int) : Bool × List DriverCall :=
  match get_selector_opt selector_type selector with
  | none => (false, [])
  | some loc => (w.clickOk loc timeout, [DriverCall.click loc timeout])

/-- `BrowserAgent.find_and_type`. -/
def find_and_type (w : World) (selector_type : Option SelectorType)
    (selector : Option String) (text : Option String) (timeout : Int) :
    Bool × List DriverCall :=
  match get_selector_opt selector_type selector, text with
  | some loc, some t => (w.fillOk loc t timeout, [DriverCall.fill loc t timeout])
  | _, _ => (false, [])

/-- `BrowserAgent.extract_content`: wait for the selector, return its inner
text, or `None` if it did not appear in time (the timeout exception is
caught). -/
def extract_content (w : World) (selector_type : Option SelectorType)
    (selector : Option String) (timeout : Int) :
    Option String × List DriverCall :=
  match get_selector_opt selector_type selector with
  | none => (none, [])
  | some loc =>
    if w.waitFound loc timeout then
      (some (w.innerText loc timeout), [DriverCall.waitForSelector loc timeout])
    else (none, [DriverCall.waitForSelector loc timeout])

/-- `BrowserAgent.wait_for_element`. -/
def wait_for_element (w : World) (selector_type : Option SelectorType)
    (selector : Option String) (timeout : Int) : Bool × List DriverCall :=
  match get_selector_opt selector_type selector with
  | none => (false, [])
  | some loc => (w.waitFound loc timeout, [DriverCall.waitForSelector loc timeout])

/-- `BrowserAgent.get_current_url`: returns the recorded field, not the live
browser url. -/
def get_current_url (a : BrowserAgent) : String := a.current_url

/-- `BrowserAgent.get_page_content`: the sanitized page content (or `""` on
error, already folded into `World.pageContent`); issues a live call. -/
def get_page_content (w : World) : String × List DriverCall :=
  (w.pageContent, [DriverCall.content])

/-- Line 301 of app.py:
`ActionType(action_data["action_type"]) if "action_type" in action_data else None`. -/
def parseActionTypeField : Option String → Except String (Option ActionType)
  | some s => (ActionType.ofValue s).map some
  | none => Except.ok none

/-- Line 308 of app.py:
`SelectorType(action_data.get("selector_type")) if action_data.get("selector_type") else None`
(Python truthiness: absent, `None` and `""` all fall to the `else`). -/
def parseSelectorTypeField : Option String → Except String (Option SelectorType)
  | some s => if s = "" then Except.ok none else (SelectorType.ofValue s).map some
  | none => Except.ok none

/-- Lines 306-314 of app.py: construction of the `BrowserAction` from the
raw decision (may raise through `SelectorType(...)`). -/
def mkBrowserAction (action_type : Option ActionType) (d : Decision) :
    Except String BrowserAction :=
  match parseSelectorTypeField d.selector_type with
  | Except.error e => Except.error e
  | Except.ok selTy =>
    Except.ok
      { action_type := action_type
        selector_type := selTy
        selector := d.selector
        input_value := d.input_value
        requires_user_input := d.requires_user_input.getD false
        user_prompt := d.user_prompt
        timeout := d.timeout.getD 10000 }

/-- `execute_browser_action` (lines 300-332): returns the updated agent, the
success flag, the optional extracted text and the live-browser calls made;
`Except.error` models an uncaught Python exception escaping the function. -/
def execute_browser_action (w : World) (agent : BrowserAgent) (action_data : Decision) :
    Except String (BrowserAgent × Bool × Option String × List DriverCall) :=
  match parseActionTypeField action_data.action_type with
  | Except.error e => Except.error e
  | Except.ok action_type =>
    if action_type = some ActionType.FINISHED then
      Except.ok (agent, true, some "finished", [])
    else
      match mkBrowserAction action_type action_data with
      | Except.error e => Except.error e
      | Except.ok action =>
        match action.action_type with
        | some ActionType.NAVIGATE =>
          let r := navigate_to_url w agent action.input_value
          Except.ok (r.1, r.2.1, none, r.2.2)
        | some ActionType.CLICK =>
          let r := find_and_click w action.selector_type action.selector action.timeout
          Except.ok (agent, r.1, none, r.2)
        | some ActionType.TYPE =>
          let r := find_and_type w action.selector_type action.selector
            action.input_value action.timeout
          Except.ok (agent, r.1, none, r.2)
        | some ActionType.EXTRACT =>
          let r := extract_content w action.selector_type action.selector action.timeout
          Except.ok (agent, r.1.isSome, r.1, r.2)
        | some ActionType.WAIT =>
          let r := wait_for_element w action.selector_type action.selector action.timeout
          Except.ok (agent, r.1, none, r.2)
        | _ => Except.ok (agent, false, none, [])

/-- A role-tagged chat message. -/
structure Msg where
  role : String
  content : String
deriving DecidableEq

/-- One record of the `llm_interactions.json` log. -/
structure LogEntry where
  timestamp : String
  session_id : String
  interaction_type : String
  messages : List Msg
  response : String
  parsed_result : Decision
deriving DecidableEq

/-- `TaskPlanner` state: the short session id and the content of the log
file (as the list of records it holds). -/
structure TaskPlanner where
  session_id : String
  log : List LogEntry
deriving DecidableEq

/-- `TaskPlanner.__init__`: a fresh session id and a truncated log file
(`open(self.log_file, "w")` writes the empty string; the first read of an
empty file hits `json.JSONDecodeError` and falls back to `[]`). -/
def TaskPlanner.init (session_id : String) : TaskPlanner :=
  { session_id := session_id, log := [] }

/-- The `current_state` dict handed to the planner each round. -/
structure BState where
  current_url : String
  page_content : String
deriving DecidableEq

/-- The decision oracle (the chat-completions call): a function from the
request messages to the raw response text and its parsed JSON decision. -/
structure Oracle where
  respond : List Msg → String × Decision

/-- `json.dumps` escaping of one character (quote and backslash). -/
def jsonEscapeChar (c : Char) : String :=
  if c = '\\' then "\\\\" else if c = '\"' then "\\\"" else String.singleton c

/-- `json.dumps` of a string. -/
def jsonString (s : String) : String :=
  "\"" ++ String.join (s.data.map jsonEscapeChar) ++ "\""

/-- `json.dumps(current_state)` for the two-key state dict. -/
def json_dumps_state (st : BState) : String :=
  "\x7b" ++ jsonString "current_url" ++ ": " ++ jsonString st.current_url ++ ", " ++
    jsonString "page_content" ++ ": " ++ jsonString st.page_content ++ "\x7d"

/-- One `"key": value` fragment of a JSON object, absent keys omitted. -/
def jsonField (name : String) : Option String → List String
  | some v => [jsonString name ++ ": " ++ v]
  | none => []

/-- `json.dumps(result)` for a parsed decision: present keys only, in the
schema order (the key order of the original response is abstracted away; no
theorem depends on this string). -/
def json_dumps_decision (d : Decision) : String :=
  "\x7b" ++ String.intercalate ", "
    (jsonField "action_type" (d.action_type.map jsonString) ++
     jsonField "selector_type" (d.selector_type.map jsonString) ++
     jsonField "selector" (d.selector.map jsonString) ++
     jsonField "input_value" (d.input_value.map jsonString) ++
     jsonField "requires_user_input"
       (d.requires_user_input.map (fun b => if b then "true" else "false")) ++
     jsonField "user_prompt" (d.user_prompt.map jsonString) ++
     jsonField "timeout" (d.timeout.map toString) ++
     jsonField "explanation" (d.explanation.map jsonString) ++
     jsonField "task_progress" (d.task_progress.map jsonString)) ++ "\x7d"

/-- `TaskPlanner.log_llm_interaction`: read the log file, append one record,
write it back — net effect, one record appended at the end. -/
def log_llm_interaction (tp : TaskPlanner) (timestamp : String)
    (interaction_type : String) (messages : List Msg) (response_content : String)
    (result : Decision) : TaskPlanner :=
  { tp with
    log := tp.log ++
      [{ timestamp := timestamp
         session_id := tp.session_id
         interaction_type := interaction_type
         messages := messages
         response := response_content
         parsed_result := result }] }

/-- The `self.system_prompt` instruction block (app.py lines 137-204). -/
def system_prompt : String :=
  "\n        You are a browser automation expert that helps execute web navigation tasks one step at a time.\n        Your role is to determine the NEXT SINGLE action to take based on the current state and user\x27s request.\n        \n        For each request:\n        1. Consider what the user is trying to achieve\n        2. Look at the current browser state (if provided)\n           - The current_url shows the page the user is on\n           - The page_content contains the HTML content of the webpage with script and style tags removed\n           - Use this HTML content to identify elements by their attributes, structure, and visible text\n        3. Determine the single most appropriate next action\n        4. If you need user input, request it\n        \n        Available action_types:\n        - \"navigate\": Go to a URL (input_value=URL)\n        - \"click\": Click an element\n        - \"type\": Enter text into a field\n        - \"extract\": Get text from an element\n        - \"wait\": Wait for an element to appear\n        - \"finished\": Task is complete, no more actions needed\n        \n        Available selector_types:\n        - \"id\": Use element ID\n        - \"class\": Use CSS class\n        - \"xpath\": Use XPath\n        - \"text\": Find by exact text\n        - \"css\": Use CSS selector\n        \n        Respond in JSON format with this exact structure for the NEXT SINGLE action to take:\n        \x7b\n            \"action_type\": \"navigate|click|type|extract|wait|finished\",\n            \"selector_type\": \"id|class|xpath|text|css\" (optional),\n            \"selector\": \"element_selector\" (optional),\n            \"input_value\": \"text_to_type_or_url\" (optional),\n            \"requires_user_input\": boolean,\n            \"user_prompt\": \"Question to ask user\" (if requires_user_input=true),\n            \"timeout\": milliseconds (default=10000),\n            \"explanation\": \"Brief explanation of what this action accomplishes\",\n        \x7d\n        \n        For the first action, if it makes sense to visit a website, use action_type=\"navigate\".\n        When navigating to websites, make sure that you\x27re sure that the website URL actually exists.\n        If the task is complete, use action_type=\"finished\" and include a summary of what was accomplished.\n        \n        Examples:\n        \n        1. First action for \"Check weather in New York\":\n        \x7b\n            \"action_type\": \"navigate\",\n            \"input_value\": \"https://weather.com\",\n            \"requires_user_input\": false,\n            \"explanation\": \"Navigating to Weather.com to check the forecast\",\n        \x7d\n        \n        2. First action for \"Order pizza from Domino\x27s\":\n        \x7b\n            \"action_type\": \"navigate\",\n            \"input_value\": \"https://dominos.com\",\n            \"requires_user_input\": false,\n            \"explanation\": \"Navigating to Domino\x27s Pizza website\", \n        \x7d\n        \n        3. Task completion example:\n        \x7b\n            \"action_type\": \"finished\",\n            \"explanation\": \"Successfully added basketball to cart on Amazon\",\n        \x7d\n        "

/-- The request messages built by `TaskPlanner.get_next_action` (lines
240-250).  Python truthiness: an absent or empty history falls to the
`else` that appends the bare user input; `current_state` is a dict,
truthy whenever passed. -/
def get_next_action_messages (user_input : String) (current_state : Option BState)
    (conversation_history : Option (List Msg)) : List Msg :=
  let base : List Msg := [{ role := "system", content := system_prompt }]
  let base :=
    match conversation_history with
    | some (m :: ms) => base ++ (m :: ms)
    | _ => base ++ [{ role := "user", content := user_input }]
  match current_state with
  | some cs =>
    base ++ [{ role := "user", content := "Current state: " ++ json_dumps_state cs }]
  | none => base

/-- `TaskPlanner.get_next_action`: build the request, call the oracle once,
log the exchange, and (when a history list was passed — `is not None`)
append the serialized decision to it as an assistant message.  Returns the
updated planner, the updated history and the raw decision. -/
def get_next_action (o : Oracle) (tp : TaskPlanner) (timestamp : String)
    (user_input : String) (current_state : Option BState)
    (conversation_history : Option (List Msg)) :
    TaskPlanner × Option (List Msg) × Decision :=
  let messages := get_next_action_messages user_input current_state conversation_history
  let resp := o.respond messages
  let tp2 := log_llm_interaction tp timestamp "get_next_action" messages resp.1 resp.2
  let history :=
    match conversation_history with
    | some h => some (h ++ [{ role := "assistant", content := json_dumps_decision resp.2 }])
    | none => none
  (tp2, history, resp.2)

/-- The request messages built by `TaskPlanner.handle_error` (lines
275-282): the system prompt, the (truthy) history, and the error/state
message asking for an alternative approach. -/
def handle_error_messages (error : String) (current_state : BState)
    (conversation_history : List Msg) : List Msg :=
  let base : List Msg := [{ role := "system", content := system_prompt }]
  let base :=
    match conversation_history with
    | [] => base
    | m :: ms => base ++ (m :: ms)
  base ++ [{ role := "user",
             content := "Error occurred: " ++ error ++ "\nCurrent state: " ++
               json_dumps_state current_state ++
               "\nPlease provide an alternative approach." }]

/-- `TaskPlanner.handle_error`: build the recovery request, call the oracle
once, log the exchange with interaction type `"handle_error"`, and append
the short error notice plus the serialized decision to the history. -/
def handle_error (o : Oracle) (tp : TaskPlanner) (timestamp : String)
    (error : String) (current_state : BState) (conversation_history : List Msg) :
    TaskPlanner × List Msg × Decision :=
  let messages := handle_error_messages error current_state conversation_history
  let resp := o.respond messages
  let tp2 := log_llm_interaction tp timestamp "handle_error" messages resp.1 resp.2
  let history := conversation_history ++
    [{ role := "user", content := "Error occurred: " ++ error },
     { role := "assistant", content := json_dumps_decision resp.2 }]
  (tp2, history, resp.2)

/-- The persistent `st.session_state` of `main` (lines 339-356). -/
structure SessState where
  agent : Option BrowserAgent
  task_planner : TaskPlanner
  user_task : Option String
  conversation_history : List Msg
  current_action : Option Decision
  user_inputs : List (String × String)
  finished : Bool
  task_progress : String
  extracted_content : Option String
deriving DecidableEq

/-- The freshly initialized session state (all the
`if ... not in st.session_state` defaults; the planner carries the fresh
session id). -/
def SessState.init (session_id : String) : SessState :=
  { agent := none
    task_planner := TaskPlanner.init session_id
    user_task := none
    conversation_history := []
    current_action := none
    user_inputs := []
    finished := false
    task_progress := ""
    extracted_content := none }

/-- The widget events that one Streamlit script run can observe: nothing,
a task typed into the goal box, or the Submit button of the
awaiting-user-input prompt. -/
inductive Event
  | idle
  | goal (text : String)
  | submit (answer : String)
deriving DecidableEq

/-- One invocation of a planner entry point, with its arguments. -/
inductive PlannerCall
  | nextAction (user_input : String) (current_state : BState) (history : List Msg)
  | handleError (error : String) (current_state : BState) (history : List Msg)
deriving DecidableEq

/-- Python truthiness of `st.session_state.user_task` at lines 358/366. -/
def task_truthy (s : SessState) : Bool :=
  match s.user_task with
  | some t => t ≠ ""
  | none => false

/-- Lines 402-441 of `main`: dispatch the pending action to the driver.
On success: a raw `"finished"` action sets the finished flag (the
"Start New Task" button rendered there returns False within this run and
line 366 makes its handler unreachable in every later run); otherwise a
truthy extracted text is stored and recorded in the history, and the
pending action is cleared.  On failure: recompute the browser state and
ask `handle_error` for an alternative, which becomes the pending action. -/
def execute_phase (w : World) (o : Oracle) (ts : String) (s : SessState)
    (act : Decision) :
    Except String (SessState × List DriverCall × List PlannerCall) :=
  match s.agent with
  | none => Except.error "AttributeError: NoneType has no browser methods"
  | some a =>
    match execute_browser_action w a act with
    | Except.error e => Except.error e
    | Except.ok (a2, success, extracted, calls) =>
      if success then
        if act.action_type = some "finished" then
          Except.ok ({ s with agent := some a2, finished := true }, calls, [])
        else
          let s2 : SessState :=
            match extracted with
            | some t =>
              if t = "" then s
              else
                { s with
                  extracted_content := some t
                  conversation_history := s.conversation_history ++
                    [({ role := "user", content := "Extracted content: " ++ t } : Msg)] }
            | none => s
          Except.ok ({ s2 with agent := some a2, current_action := none }, calls, [])
      else
        let pc := get_page_content w
        let bstate : BState :=
          { current_url := get_current_url a2, page_content := pc.1 }
        let r := handle_error o s.task_planner ts "Action failed" bstate
          s.conversation_history
        Except.ok
          ({ s with
             agent := some a2
             task_planner := r.1
             conversation_history := r.2.1
             current_action := some r.2.2 },
           calls ++ pc.2,
           [PlannerCall.handleError "Action failed" bstate s.conversation_history])

/-- Lines 386-441 of `main`: with a pending action in hand, surface its
`task_progress`, then either suspend on an unanswered `user_prompt`
(recording the answer when the Submit button fires), or fall through to
execution. -/
def action_phase (w : World) (o : Oracle) (ts : String) (ev : Event)
    (s : SessState) (act : Decision) :
    Except String (SessState × List DriverCall × List PlannerCall) :=
  let s2 :=
    match act.task_progress with
    | some tpg => { s with task_progress := tpg }
    | none => s
  let requires_input := act.requires_user_input.getD false
  let prompt := act.user_prompt.getD ""
  if requires_input && (s2.user_inputs.lookup prompt).isNone then
    match ev with
    | Event.submit answer =>
      Except.ok
        ({ s2 with
           user_inputs := (prompt, answer) :: s2.user_inputs
           current_action := some { act with input_value := some answer }
           conversation_history := s2.conversation_history ++
             [{ role := "user", content := "User provided input: " ++ answer }] },
         [], [])
    | _ => Except.ok (s2, [], [])
  else
    execute_phase w o ts s2 act

/-- One run of the `main` script body over the persistent session state
(lines 358-441): accept a goal when none is active, do nothing once the
finished flag is set, plan when no action is pending (and continue into
`action_phase` within the same run), otherwise hand the pending action to
`action_phase`.  Also returns the live-browser calls and the planner calls
the run made, in order. -/
def step (w : World) (o : Oracle) (ts : String) (ev : Event) (s : SessState) :
    Except String (SessState × List DriverCall × List PlannerCall) :=
  if task_truthy s then
    if s.finished then Except.ok (s, [], [])
    else
      match s.current_action with
      | some act => action_phase w o ts ev s act
      | none =>
        let url := match s.agent with | some a => get_current_url a | none => ""
        let pc : String × List DriverCall :=
          match s.agent with | some _ => get_page_content w | none => ("", [])
        let bstate : BState := { current_url := url, page_content := pc.1 }
        let r := get_next_action o s.task_planner ts (s.user_task.getD "")
          (some bstate) (some s.conversation_history)
        let s2 :=
          { s with
            task_planner := r.1
            conversation_history := (r.2.1).getD s.conversation_history
            current_action := some r.2.2 }
        match action_phase w o ts ev s2 r.2.2 with
        | Except.error e => Except.error e
        | Except.ok (s3, calls2, plans2) =>
          Except.ok
            (s3, pc.2 ++ calls2,
             PlannerCall.nextAction (s.user_task.getD "") bstate
               s.conversation_history :: plans2)
  else
    match ev with
    | Event.goal g =>
      if g = "" then Except.ok (s, [], [])
      else
        Except.ok
          ({ s with
             user_task := some g
             conversation_history := [{ role := "user", content := g }]
             agent := some BrowserAgent.init },
           [], [])
    | _ => Except.ok (s, [], [])

/-- Folding a list of navigation requests through the driver (used to state
the current-url invariant of C6). -/
def run_navigations (w : World) (a : BrowserAgent) (urls : List String) :
    BrowserAgent :=
  urls.foldl (fun acc u => (navigate_to_url w acc (some u)).1) a

/-- Spec-side definition for C6, following the spec words "the last URL
the driver successfully navigated to": the last element of the list for
which `goto` succeeded, if any. -/
def lastSuccessfulNav (w : World) : List String → Option String
  | [] => none
  | u :: rest =>
    (lastSuccessfulNav w rest).orElse
      (fun _ => if w.gotoOk u then some u else none)

/-! ### Shared concrete instances and helper lemmas -/

/-- A browser world in which every operation fails and the page is empty. -/
def trivialWorld : World :=
  { gotoOk := fun _ => false
    clickOk := fun _ _ => false
    fillOk := fun _ _ _ => false
    waitFound := fun _ _ => false
    innerText := fun _ _ => ""
    pageContent := "" }

/-- An oracle that always answers with an empty JSON object. -/
def idleOracle : Oracle := ⟨fun _ => ("\x7b\x7d", Decision.empty)⟩

/-- `ActionType(s)` raises on any string outside the six known values. -/
theorem ActionType.ofValue_unknown (s : String) (h : s ∉ knownActionTypes) :
    ActionType.ofValue s = Except.error (s ++ " is not a valid ActionType") := by
  simp [knownActionTypes] at h
  obtain ⟨h1, h2, h3, h4, h5, h6⟩ := h
  simp [ActionType.ofValue, h1, h2, h3, h4, h5, h6]

/-- A raw decision with no `action_type` key is dispatched to no driver
operation: the fall-through returns the failure pair, unless the
`selector_type` decode raised first. -/
theorem exec_missing_kind (w : World) (a : BrowserAgent) (d : Decision)
    (h : d.action_type = none) :
    execute_browser_action w a d = Except.ok (a, false, none, []) ∨
    ∃ e, execute_browser_action w a d = Except.error e := by
  cases hp : parseSelectorTypeField d.selector_type with
  | error e =>
    right
    exact ⟨e, by simp [execute_browser_action, parseActionTypeField, h,
      mkBrowserAction, hp]⟩
  | ok selTy =>
    left
    simp [execute_browser_action, parseActionTypeField, h, mkBrowserAction, hp]

/-- A raw decision whose `action_type` value is unknown raises the enum
`ValueError` before any driver operation. -/
theorem exec_unknown_kind (w : World) (a : BrowserAgent) (d : Decision)
    (s : String) (hs : d.action_type = some s) (h : s ∉ knownActionTypes) :
    execute_browser_action w a d =
      Except.error (s ++ " is not a valid ActionType") := by
  simp [execute_browser_action, parseActionTypeField, hs,
    ActionType.ofValue_unknown s h, Except.map]

/-- A raw decision whose `action_type` value is `"finished"` short-circuits
before the `BrowserAction` is even built: success, no driver call. -/
theorem exec_finished (w : World) (a : BrowserAgent) (d : Decision)
    (h : d.action_type = some "finished") :
    execute_browser_action w a d = Except.ok (a, true, some "finished", []) := by
  simp [execute_browser_action, parseActionTypeField, h, ActionType.ofValue,
    Except.map]

/-- The recorded url after a sequence of navigations is the last
successfully loaded one, starting from the given agent. -/
theorem run_navigations_current_url (w : World) (urls : List String)
    (a : BrowserAgent) :
    (run_navigations w a urls).current_url =
      (lastSuccessfulNav w urls).getD a.current_url := by
  induction urls generalizing a with
  | nil => rfl
  | cons u rest ih =>
    have hstep : run_navigations w a (u :: rest) =
        run_navigations w (navigate_to_url w a (some u)).1 rest := rfl
    rw [hstep, ih]
    cases h : lastSuccessfulNav w rest with
    | some v => simp [lastSuccessfulNav, h, Option.orElse]
    | none =>
      cases hg : w.gotoOk u with
      | true => simp [lastSuccessfulNav, h, hg, navigate_to_url, Option.orElse]
      | false => simp [lastSuccessfulNav, h, hg, navigate_to_url, Option.orElse]

/-! ### Claim theorems -/

/-- C3: the selector-kind-to-locator mapping is pure and returns exactly
"#" ++ s for ID, "." ++ s for CLASS, s verbatim for XPATH, "text=" ++ s
for TEXT and s verbatim for CSS. -/
theorem c3_selector_mapping (s : String) :
    get_selector SelectorType.ID s = "#" ++ s ∧
    get_selector SelectorType.CLASS s = "." ++ s ∧
    get_selector SelectorType.XPATH s = s ∧
    get_selector SelectorType.TEXT s = "text=" ++ s ∧
    get_selector SelectorType.CSS s = s :=
  ⟨rfl, rfl, rfl, rfl, rfl⟩

/-- C4: a raw decision whose `action_type` key is absent, or whose value is
not one of the six known kind strings, never executes a driver operation
and never succeeds: the unknown value raises the enum decode error, the
absent key falls through to the `(False, None)` failure (or raises through
the `selector_type` decode), and any returned result is the no-call
failure result. -/
theorem c4_missing_or_unknown_kind (w : World) (a : BrowserAgent) (d : Decision) :
    (∀ s : String, d.action_type = some s → s ∉ knownActionTypes →
      execute_browser_action w a d =
        Except.error (s ++ " is not a valid ActionType")) ∧
    (d.action_type = none →
      execute_browser_action w a d = Except.ok (a, false, none, []) ∨
      ∃ e, execute_browser_action w a d = Except.error e) ∧
    (∀ (a2 : BrowserAgent) (succ : Bool) (ex : Option String)
        (calls : List DriverCall),
      (d.action_type = none ∨ ∃ s, d.action_type = some s ∧ s ∉ knownActionTypes) →
      execute_browser_action w a d = Except.ok (a2, succ, ex, calls) →
      a2 = a ∧ succ = false ∧ ex = none ∧ calls = []) := by
  refine ⟨fun s hs h => exec_unknown_kind w a d s hs h, exec_missing_kind w a d, ?_⟩
  intro a2 succ ex calls hcase hok
  rcases hcase with hnone | ⟨s, hs, h⟩
  · rcases exec_missing_kind w a d hnone with heq | ⟨e, heq⟩
    · rw [heq] at hok
      injection hok with hok
      injection hok with h1 hok
      injection hok with h2 hok
      injection hok with h3 h4
      exact ⟨h1.symm, h2.symm, h3.symm, h4.symm⟩
    · rw [heq] at hok; cases hok
  · rw [exec_unknown_kind w a d s hs h] at hok; cases hok

/-- C4 witness: a decision with the unknown kind "hover" raises the decode
error, and the empty decision yields the no-call failure result. -/
theorem c4_missing_or_unknown_kind_witness :
    execute_browser_action trivialWorld BrowserAgent.init
      { Decision.empty with action_type := some "hover" } =
      Except.error ("hover" ++ " is not a valid ActionType") ∧
    (execute_browser_action trivialWorld BrowserAgent.init Decision.empty =
      Except.ok (BrowserAgent.init, false, none, []) ∨
     ∃ e, execute_browser_action trivialWorld BrowserAgent.init Decision.empty =
      Except.error e) :=
  ⟨(c4_missing_or_unknown_kind trivialWorld BrowserAgent.init
      { Decision.empty with action_type := some "hover" }).1 "hover" rfl (by decide),
   (c4_missing_or_unknown_kind trivialWorld BrowserAgent.init Decision.empty).2.1 rfl⟩

/-- C8 counterexample: a raw decision supplying the non-positive timeout 0
decodes to an action whose timeout is 0, not 10000, and that 0 is the
timeout actually handed to the driver. -/
def c8_decision : Decision :=
  { Decision.empty with
    action_type := some "click", selector_type := some "id",
    selector := some "x", timeout := some 0 }

/-- C8 counterexample: the supplied non-positive timeout is used verbatim,
refuting the claim that it defaults to 10000. -/
theorem c8_counterexample :
    (mkBrowserAction (some ActionType.CLICK) c8_decision).map BrowserAction.timeout =
      Except.ok 0 ∧
    execute_browser_action trivialWorld BrowserAgent.init c8_decision =
      Except.ok (BrowserAgent.init, false, none, [DriverCall.click "#x" 0]) :=
  ⟨rfl, rfl⟩

/-- C8 (amended): the decoded timeout is 10000 exactly when the `timeout`
key is absent; any supplied value — non-positive included — is used
verbatim. -/
theorem c8_timeout_default (action_type : Option ActionType) (d : Decision)
    (act : BrowserAction) (h : mkBrowserAction action_type d = Except.ok act) :
    (d.timeout = none → act.timeout = 10000) ∧
    ∀ v : Int, d.timeout = some v → act.timeout = v := by
  cases hp : parseSelectorTypeField d.selector_type with
  | error e => rw [mkBrowserAction, hp] at h; cases h
  | ok selTy =>
    rw [mkBrowserAction, hp] at h
    injection h with h
    constructor
    · intro ht; rw [← h]; simp [ht]
    · intro v hv; rw [← h]; simp [hv]

/-- C8 witness: with the timeout key absent the decoded timeout is 10000. -/
theorem c8_timeout_default_witness :
    (Decision.empty.timeout = none →
      BrowserAction.timeout ⟨none, none, none, none, false, none, 10000⟩ = 10000) ∧
    ∀ v : Int, Decision.empty.timeout = some v →
      BrowserAction.timeout ⟨none, none, none, none, false, none, 10000⟩ = v :=
  c8_timeout_default none Decision.empty ⟨none, none, none, none, false, none, 10000⟩ rfl

/-- C9 counterexample: the interaction type recorded by the fresh-planning
entry point is the literal string "get_next_action", which is not one of
"plan_next" / "plan_recovery" the claim names. -/
theorem c9_counterexample :
    ((get_next_action idleOracle (TaskPlanner.init "ab12cd34") "t0" "goal"
        none none).1.log.map LogEntry.interaction_type) = ["get_next_action"] ∧
    "get_next_action" ∉ (["plan_next", "plan_recovery"] : List String) :=
  ⟨rfl, by decide⟩

/-- C9 (amended): every log record carries the timestamp, the planner's
session id, an interaction type naming the entry point — the literal
"get_next_action" for fresh planning and "handle_error" for recovery —
the request messages, the raw response text and the decoded result; a
fresh planner instance starts with a truncated (empty) log, and each call
appends exactly one record at the end, so order reflects call order. -/
theorem c9_log_structure (o : Oracle) (tp : TaskPlanner) (sid ts ui err : String)
    (cs : Option BState) (cs2 : BState) (ch : Option (List Msg)) (ch2 : List Msg) :
    (TaskPlanner.init sid).log = [] ∧
    (get_next_action o tp ts ui cs ch).1.log = tp.log ++
      [{ timestamp := ts
         session_id := tp.session_id
         interaction_type := "get_next_action"
         messages := get_next_action_messages ui cs ch
         response := (o.respond (get_next_action_messages ui cs ch)).1
         parsed_result := (o.respond (get_next_action_messages ui cs ch)).2 }] ∧
    (handle_error o tp ts err cs2 ch2).1.log = tp.log ++
      [{ timestamp := ts
         session_id := tp.session_id
         interaction_type := "handle_error"
         messages := handle_error_messages err cs2 ch2
         response := (o.respond (handle_error_messages err cs2 ch2)).1
         parsed_result := (o.respond (handle_error_messages err cs2 ch2)).2 }] :=
  ⟨rfl, rfl, rfl⟩

/-- C10: a decision with the valid kind "click" and the unrecognized
selector_type value "bogus" makes execute_browser_action raise the enum
ValueError (an uncaught exception) instead of returning a
(False, None) failure result. -/
theorem c10_selector_type_valueerror (w : World) (a : BrowserAgent) :
    execute_browser_action w a
      { Decision.empty with
        action_type := some "click", selector_type := some "bogus" } =
      Except.error ("bogus" ++ " is not a valid SelectorType") :=
  rfl

/-- C6: navigation failure returns False and leaves the recorded url
unchanged; success records the url; the recorded url starts as "" and,
after any sequence of navigations, equals the last successfully loaded
url (or "" when none succeeded). -/
theorem c6_current_url_tracking :
    get_current_url BrowserAgent.init = "" ∧
    (∀ (w : World) (a : BrowserAgent) (url : String), w.gotoOk url = false →
      navigate_to_url w a (some url) = (a, false, [DriverCall.goto url])) ∧
    (∀ (w : World) (a : BrowserAgent) (url : String), w.gotoOk url = true →
      navigate_to_url w a (some url) =
        ({ current_url := url }, true, [DriverCall.goto url]) ∧
      get_current_url (navigate_to_url w a (some url)).1 = url) ∧
    (∀ (w : World) (urls : List String),
      get_current_url (run_navigations w BrowserAgent.init urls) =
        (lastSuccessfulNav w urls).getD "") := by
  refine ⟨rfl, ?_, ?_, ?_⟩
  · intro w a url h; simp [navigate_to_url, h]
  · intro w a url h
    constructor
    · simp [navigate_to_url, h]
    · simp [navigate_to_url, h, get_current_url]
  · intro w urls
    exact run_navigations_current_url w urls BrowserAgent.init

/-- C6 witness: with a world where only "https://b.example" loads, a failed
navigation leaves the agent unchanged, a successful one records the url,
and a mixed sequence ends on the last successful url. -/
def c6_world : World :=
  { trivialWorld with gotoOk := fun u => u = "https://b.example" }

/-- C6 witness statement. -/
theorem c6_current_url_tracking_witness :
    get_current_url BrowserAgent.init = "" ∧
    navigate_to_url c6_world BrowserAgent.init (some "https://a.example") =
      (BrowserAgent.init, false, [DriverCall.goto "https://a.example"]) ∧
    navigate_to_url c6_world BrowserAgent.init (some "https://b.example") =
      ({ current_url := "https://b.example" }, true,
        [DriverCall.goto "https://b.example"]) ∧
    get_current_url (run_navigations c6_world BrowserAgent.init
      ["https://b.example", "https://a.example"]) =
      (lastSuccessfulNav c6_world ["https://b.example", "https://a.example"]).getD "" :=
  ⟨c6_current_url_tracking.1,
   c6_current_url_tracking.2.1 c6_world BrowserAgent.init "https://a.example" (by decide),
   (c6_current_url_tracking.2.2.1 c6_world BrowserAgent.init "https://b.example"
     (by decide)).1,
   c6_current_url_tracking.2.2.2 c6_world
     ["https://b.example", "https://a.example"]⟩

/-- C1: whenever the pending action's execution returns failure, the run
makes exactly one planner call — `handle_error` with the description
"Action failed" and the freshly recomputed browser state (post-execution
recorded url and current page content) — never `get_next_action`; the
recovery result becomes the new pending action, and the only extra driver
call is the page-content read for that fresh state. -/
theorem c1_failure_routes_to_recovery (w : World) (o : Oracle) (ts : String)
    (ev : Event) (s : SessState) (act : Decision) (a a2 : BrowserAgent)
    (ex : Option String) (calls : List DriverCall)
    (htask : task_truthy s = true) (hfin : s.finished = false)
    (hca : s.current_action = some act) (hagent : s.agent = some a)
    (hcond : (act.requires_user_input.getD false &&
      (s.user_inputs.lookup (act.user_prompt.getD "")).isNone) = false)
    (hexec : execute_browser_action w a act = Except.ok (a2, false, ex, calls)) :
    (step w o ts ev s).map (fun r => r.2.2) =
      Except.ok [PlannerCall.handleError "Action failed"
        { current_url := a2.current_url, page_content := w.pageContent }
        s.conversation_history] ∧
    (step w o ts ev s).map (fun r => r.1.current_action) =
      Except.ok (some (o.respond (handle_error_messages "Action failed"
        { current_url := a2.current_url, page_content := w.pageContent }
        s.conversation_history)).2) ∧
    (step w o ts ev s).map (fun r => r.2.1) =
      Except.ok (calls ++ [DriverCall.content]) := by
  have hstep : step w o ts ev s = action_phase w o ts ev s act := by
    simp [step, htask, hfin, hca]
  rw [hstep]
  cases htp : act.task_progress with
  | none =>
    simp [action_phase, htp, hcond, execute_phase, hagent, hexec,
      get_page_content, get_current_url, handle_error, Except.map]
  | some tpg =>
    simp [action_phase, htp, hcond, execute_phase, hagent, hexec,
      get_page_content, get_current_url, handle_error, Except.map]

/-- C1 witness: a failing click on an id selector. -/
def c1_world : World := { trivialWorld with pageContent := "<p>login page</p>" }

/-- C1 witness: the failing click decision. -/
def c1_decision : Decision :=
  { Decision.empty with
    action_type := some "click", selector_type := some "id",
    selector := some "login" }

/-- C1 witness: the alternative the oracle proposes on recovery. -/
def c1_recovery : Decision :=
  { Decision.empty with
    action_type := some "navigate", input_value := some "https://example.com" }

/-- C1 witness: an oracle that always proposes `c1_recovery`. -/
def c1_oracle : Oracle := ⟨fun _ => ("resp", c1_recovery)⟩

/-- C1 witness: the session about to execute the failing click. -/
def c1_state : SessState :=
  { agent := some { current_url := "https://a.example" }
    task_planner := TaskPlanner.init "sess0001"
    user_task := some "log in"
    conversation_history := [{ role := "user", content := "log in" }]
    current_action := some c1_decision
    user_inputs := []
    finished := false
    task_progress := ""
    extracted_content := none }

/-- C1 witness: the failed click is followed by exactly one handle_error
call with the fresh state, whose result becomes the pending action. -/
theorem c1_failure_routes_to_recovery_witness :
    (step c1_world c1_oracle "t0" Event.idle c1_state).map (fun r => r.2.2) =
      Except.ok [PlannerCall.handleError "Action failed"
        { current_url := "https://a.example", page_content := "<p>login page</p>" }
        [{ role := "user", content := "log in" }]] ∧
    (step c1_world c1_oracle "t0" Event.idle c1_state).map
        (fun r => r.1.current_action) = Except.ok (some c1_recovery) ∧
    (step c1_world c1_oracle "t0" Event.idle c1_state).map (fun r => r.2.1) =
      Except.ok ([DriverCall.click "#login" 10000] ++ [DriverCall.content]) :=
  c1_failure_routes_to_recovery c1_world c1_oracle "t0" Event.idle c1_state
    c1_decision { current_url := "https://a.example" }
    { current_url := "https://a.example" } none
    [DriverCall.click "#login" 10000] rfl rfl rfl rfl rfl rfl

/-- C2: a decision whose kind is "finished" executes as a success with no
driver call; the loop then sets the session's finished flag (that run
makes no driver and no planner call), and every later run of a finished
session returns the state untouched with no driver and no planner call. -/
theorem c2_finished_terminal :
    (∀ (w : World) (a : BrowserAgent) (d : Decision),
      d.action_type = some "finished" →
      execute_browser_action w a d = Except.ok (a, true, some "finished", [])) ∧
    (∀ (w : World) (o : Oracle) (ts : String) (ev : Event) (s : SessState)
        (act : Decision) (a : BrowserAgent),
      task_truthy s = true → s.finished = false → s.current_action = some act →
      s.agent = some a →
      (act.requires_user_input.getD false &&
        (s.user_inputs.lookup (act.user_prompt.getD "")).isNone) = false →
      act.action_type = some "finished" →
      (step w o ts ev s).map (fun r => (r.1.finished, r.2.1, r.2.2)) =
        Except.ok (true, [], [])) ∧
    (∀ (w : World) (o : Oracle) (ts : String) (ev : Event) (s : SessState),
      task_truthy s = true → s.finished = true →
      step w o ts ev s = Except.ok (s, [], [])) := by
  refine ⟨exec_finished, ?_, ?_⟩
  · intro w o ts ev s act a htask hfin hca hagent hcond hft
    have hstep : step w o ts ev s = action_phase w o ts ev s act := by
      simp [step, htask, hfin, hca]
    rw [hstep]
    cases htp : act.task_progress with
    | none =>
      simp [action_phase, htp, hcond, execute_phase, hagent,
        exec_finished w a act hft, hft, Except.map]
    | some tpg =>
      simp [action_phase, htp, hcond, execute_phase, hagent,
        exec_finished w a act hft, hft, Except.map]
  · intro w o ts ev s htask hfin
    simp [step, htask, hfin]

/-- C2 witness: the bare finished decision. -/
def c2_decision : Decision := { Decision.empty with action_type := some "finished" }

/-- C2 witness: a session about to execute the finished decision. -/
def c2_state : SessState :=
  { agent := some { current_url := "https://a.example" }
    task_planner := TaskPlanner.init "sess0002"
    user_task := some "do it"
    conversation_history := [{ role := "user", content := "do it" }]
    current_action := some c2_decision
    user_inputs := []
    finished := false
    task_progress := ""
    extracted_content := none }

/-- C2 witness: the same session once marked finished. -/
def c2_done_state : SessState :=
  { c2_state with finished := true, current_action := none }

/-- C2 witness statement. -/
theorem c2_finished_terminal_witness :
    execute_browser_action trivialWorld BrowserAgent.init c2_decision =
      Except.ok (BrowserAgent.init, true, some "finished", []) ∧
    (step trivialWorld idleOracle "t0" Event.idle c2_state).map
        (fun r => (r.1.finished, r.2.1, r.2.2)) = Except.ok (true, [], []) ∧
    step trivialWorld idleOracle "t0" Event.idle c2_done_state =
      Except.ok (c2_done_state, [], []) :=
  ⟨c2_finished_terminal.1 trivialWorld BrowserAgent.init c2_decision rfl,
   c2_finished_terminal.2.1 trivialWorld idleOracle "t0" Event.idle c2_state
     c2_decision { current_url := "https://a.example" } rfl rfl rfl rfl rfl rfl,
   c2_finished_terminal.2.2 trivialWorld idleOracle "t0" Event.idle
     c2_done_state rfl rfl⟩

/-- C5: a pending action with requires_user_input whose prompt has no
recorded answer is not dispatched — the run makes no driver call and no
planner call and leaves the action pending; on Submit, the answer is
recorded, written into the action's input_value, and a user message is
appended to the history, still with no dispatch in that run, so all of it
happens before any dispatch of the action. -/
theorem c5_user_input_gate (w : World) (o : Oracle) (ts : String)
    (s : SessState) (act : Decision)
    (htask : task_truthy s = true) (hfin : s.finished = false)
    (hca : s.current_action = some act)
    (hreq : act.requires_user_input.getD false = true)
    (hlook : (s.user_inputs.lookup (act.user_prompt.getD "")).isNone = true) :
    (step w o ts Event.idle s).map
        (fun r => (r.1.current_action, r.1.conversation_history,
          r.1.user_inputs, r.2.1, r.2.2)) =
      Except.ok (some act, s.conversation_history, s.user_inputs, [], []) ∧
    ∀ answer : String,
      (step w o ts (Event.submit answer) s).map
          (fun r => (r.1.current_action, r.1.conversation_history,
            r.1.user_inputs, r.2.1, r.2.2)) =
        Except.ok (some { act with input_value := some answer },
          s.conversation_history ++
            [{ role := "user", content := "User provided input: " ++ answer }],
          (act.user_prompt.getD "", answer) :: s.user_inputs, [], []) := by
  have hstep : ∀ ev, step w o ts ev s = action_phase w o ts ev s act := by
    intro ev; simp [step, htask, hfin, hca]
  constructor
  · rw [hstep]
    cases htp : act.task_progress with
    | none => simp [action_phase, htp, hreq, hlook, hca, Except.map]
    | some tpg => simp [action_phase, htp, hreq, hlook, hca, Except.map]
  · intro answer
    rw [hstep]
    cases htp : act.task_progress with
    | none => simp [action_phase, htp, hreq, hlook, Except.map]
    | some tpg => simp [action_phase, htp, hreq, hlook, Except.map]

/-- C5 witness: a type action that needs the user's email. -/
def c5_decision : Decision :=
  { Decision.empty with
    action_type := some "type", selector_type := some "id",
    selector := some "email", requires_user_input := some true,
    user_prompt := some "What is your email?" }

/-- C5 witness: the session holding that pending action, unanswered. -/
def c5_state : SessState :=
  { agent := some { current_url := "https://a.example" }
    task_planner := TaskPlanner.init "sess0005"
    user_task := some "sign up"
    conversation_history := [{ role := "user", content := "sign up" }]
    current_action := some c5_decision
    user_inputs := []
    finished := false
    task_progress := ""
    extracted_content := none }

/-- C5 witness statement: suspended while unanswered; the answer "a@b.com"
is recorded into input_value and the history before any dispatch. -/
theorem c5_user_input_gate_witness :
    (step trivialWorld idleOracle "t0" Event.idle c5_state).map
        (fun r => (r.1.current_action, r.1.conversation_history,
          r.1.user_inputs, r.2.1, r.2.2)) =
      Except.ok (some c5_decision, c5_state.conversation_history,
        c5_state.user_inputs, [], []) ∧
    (step trivialWorld idleOracle "t0" (Event.submit "a@b.com") c5_state).map
        (fun r => (r.1.current_action, r.1.conversation_history,
          r.1.user_inputs, r.2.1, r.2.2)) =
      Except.ok (some { c5_decision with input_value := some "a@b.com" },
        c5_state.conversation_history ++
          [{ role := "user", content := "User provided input: " ++ "a@b.com" }],
        (c5_decision.user_prompt.getD "", "a@b.com") :: c5_state.user_inputs,
        [], []) :=
  ⟨(c5_user_input_gate trivialWorld idleOracle "t0" c5_state c5_decision
      rfl rfl rfl rfl rfl).1,
   (c5_user_input_gate trivialWorld idleOracle "t0" c5_state c5_decision
      rfl rfl rfl rfl rfl).2 "a@b.com"⟩

/-- C7 (amended): when the pending action executes successfully with a
non-None and NON-EMPTY extracted text (and is not the finished
short-circuit), the loop stores that text as the session's extracted
content, appends the "Extracted content: ..." history entry, clears the
pending action, and makes no planner call; an empty extracted string,
though a success, fails the Python truthiness test and is neither stored
nor recorded (see the counterexample). -/
theorem c7_extraction_recorded (w : World) (o : Oracle) (ts : String)
    (ev : Event) (s : SessState) (act : Decision) (a a2 : BrowserAgent)
    (t : String) (calls : List DriverCall)
    (htask : task_truthy s = true) (hfin : s.finished = false)
    (hca : s.current_action = some act) (hagent : s.agent = some a)
    (hcond : (act.requires_user_input.getD false &&
      (s.user_inputs.lookup (act.user_prompt.getD "")).isNone) = false)
    (hexec : execute_browser_action w a act = Except.ok (a2, true, some t, calls))
    (hnf : act.action_type ≠ some "finished") (hne : t ≠ "") :
    (step w o ts ev s).map
        (fun r => (r.1.extracted_content, r.1.conversation_history,
          r.1.current_action, r.2.1, r.2.2)) =
      Except.ok (some t,
        s.conversation_history ++
          [{ role := "user", content := "Extracted content: " ++ t }],
        none, calls, []) := by
  have hstep : step w o ts ev s = action_phase w o ts ev s act := by
    simp [step, htask, hfin, hca]
  rw [hstep]
  cases htp : act.task_progress with
  | none =>
    simp [action_phase, htp, hcond, execute_phase, hagent, hexec, hnf, hne,
      Except.map]
  | some tpg =>
    simp [action_phase, htp, hcond, execute_phase, hagent, hexec, hnf, hne,
      Except.map]

/-- C7: the extract decision targeting the price element. -/
def c7_decision : Decision :=
  { Decision.empty with
    action_type := some "extract", selector_type := some "css",
    selector := some ".price" }

/-- C7: a session about to execute that extract decision. -/
def c7_state : SessState :=
  { agent := some { current_url := "https://shop.example" }
    task_planner := TaskPlanner.init "sess0007"
    user_task := some "get the price"
    conversation_history := [{ role := "user", content := "get the price" }]
    current_action := some c7_decision
    user_inputs := []
    finished := false
    task_progress := ""
    extracted_content := none }

/-- C7 counterexample world: the element is found but its text is empty. -/
def c7_world_empty : World :=
  { trivialWorld with waitFound := fun _ _ => true, innerText := fun _ _ => "" }

/-- C7 witness world: the element is found with text "$19.99". -/
def c7_world_price : World :=
  { trivialWorld with
    waitFound := fun _ _ => true, innerText := fun _ _ => "$19.99" }

/-- C7 counterexample: the extract succeeds with the empty string — the
driver returned non-None text — yet nothing is stored and no
"Extracted content: " history entry is appended, refuting the claim for
the empty string. -/
theorem c7_counterexample :
    execute_browser_action c7_world_empty
        { current_url := "https://shop.example" } c7_decision =
      Except.ok ({ current_url := "https://shop.example" }, true, some "",
        [DriverCall.waitForSelector ".price" 10000]) ∧
    (step c7_world_empty idleOracle "t0" Event.idle c7_state).map
        (fun r => (r.1.extracted_content, r.1.conversation_history)) =
      Except.ok (none, [{ role := "user", content := "get the price" }]) :=
  ⟨rfl, rfl⟩

/-- C7 witness: the "$19.99" extraction is stored and recorded. -/
theorem c7_extraction_recorded_witness :
    (step c7_world_price idleOracle "t0" Event.idle c7_state).map
        (fun r => (r.1.extracted_content, r.1.conversation_history,
          r.1.current_action, r.2.1, r.2.2)) =
      Except.ok (some "$19.99",
        c7_state.conversation_history ++
          [{ role := "user", content := "Extracted content: " ++ "$19.99" }],
        none, [DriverCall.waitForSelector ".price" 10000], []) :=
  c7_extraction_recorded c7_world_price idleOracle "t0" Event.idle c7_state
    c7_decision { current_url := "https://shop.example" }
    { current_url := "https://shop.example" } "$19.99"
    [DriverCall.waitForSelector ".price" 10000]
    rfl rfl rfl rfl rfl rfl (by decide) (by decide)

end BrowserAgentApp
